import Mathlib

/-!
Verification of the SDI_Fi reconciliation-and-billing core.

Shallow embedding conventions:
* timestamps (`datetime`) are modelled as `Int` (an arbitrary linear time axis);
* floats / Decimal values are modelled as `ℚ` (all concrete inputs used here
  are exactly representable, so float rounding does not intervene);
* nullable columns are `Option`-valued;
* Python's stable `sorted(...)[0]` on a key is modelled by `argminFirst`
  (first element attaining the minimal key);
* Python's builtin `round` (round-half-to-even on floats) is `pythonRound`;
* functions that `raise` are modelled in `Except String`.
-/

namespace SDIFi

/-- Timestamp value standing for Python's `datetime.min` (used as the default
for a missing `received_at`).  Its exact value is irrelevant to the theorems. -/
def dtMin : Int := -62135596800

/-- Truncation toward zero, Python's `int(...)` on a float. -/
def pyInt (q : ℚ) : Int := if 0 ≤ q then ⌊q⌋ else -(⌊-q⌋)

/-- Python's builtin `round` on a float: round half to even. -/
def pythonRound (q : ℚ) : Int :=
  let f := ⌊q⌋
  let frac := q - (f : ℚ)
  if frac < 1/2 then f
  else if 1/2 < frac then f + 1
  else if f % 2 = 0 then f else f + 1

theorem pyInt_eval (q : ℚ) (z : Int) (h0 : 0 ≤ q) (h1 : (z : ℚ) ≤ q)
    (h2 : q < z + 1) : pyInt q = z := by
  unfold pyInt
  rw [if_pos h0]
  exact Int.floor_eq_iff.mpr ⟨h1, by exact_mod_cast h2⟩

/-- Evaluation of `pythonRound` when the fractional part is below one half. -/
theorem pythonRound_eval_low (q : ℚ) (z : Int) (h1 : (z : ℚ) ≤ q)
    (h2 : q - z < 1/2) : pythonRound q = z := by
  have hf : ⌊q⌋ = z := Int.floor_eq_iff.mpr ⟨h1, by linarith⟩
  unfold pythonRound
  rw [hf, if_pos (by linarith)]

/-- Evaluation of `pythonRound` at an exact half with an even floor. -/
theorem pythonRound_eval_half_even (q : ℚ) (z : Int) (hz : z % 2 = 0)
    (h : q - z = 1/2) : pythonRound q = z := by
  have h1 : (z : ℚ) ≤ q := by linarith
  have hf : ⌊q⌋ = z := Int.floor_eq_iff.mpr ⟨h1, by linarith⟩
  unfold pythonRound
  rw [hf, if_neg (by linarith), if_neg (by linarith), if_pos hz]

/-- Python's `max` on timestamps (explicit `if`, kernel-computable). -/
def intMax (a b : Int) : Int := if a < b then b else a

/-- Python's `min` on timestamps. -/
def intMin (a b : Int) : Int := if a < b then a else b

/-- Python's `max` on floats. -/
def qMax (a b : ℚ) : ℚ := if a < b then b else a

/-- Python's `min` on floats. -/
def qMin (a b : ℚ) : ℚ := if b < a then b else a

-- Lexicographic key tuples (mirroring Python's tuple comparison in `sorted`).
abbrev K2 := Int × Int
abbrev K3 := Int × Int × Int
abbrev K4 := Int × Int × Int × Int
abbrev K5 := Int × Int × Int × Int × Int

abbrev keyLt2 (a b : K2) : Prop := a.1 < b.1 ∨ (a.1 = b.1 ∧ a.2 < b.2)

abbrev keyLt3 (a b : K3) : Prop := a.1 < b.1 ∨ (a.1 = b.1 ∧ keyLt2 a.2 b.2)

abbrev keyLt4 (a b : K4) : Prop := a.1 < b.1 ∨ (a.1 = b.1 ∧ keyLt3 a.2 b.2)

abbrev keyLt5 (a b : K5) : Prop := a.1 < b.1 ∨ (a.1 = b.1 ∧ keyLt4 a.2 b.2)

theorem keyLt5_irrefl (a : K5) : ¬ keyLt5 a a := by
  obtain ⟨a1, a2, a3, a4, a5⟩ := a
  simp only [keyLt5, keyLt4, keyLt3, keyLt2]
  omega

theorem keyLt5_trans {a b c : K5} (h1 : keyLt5 a b) (h2 : keyLt5 b c) : keyLt5 a c := by
  obtain ⟨a1, a2, a3, a4, a5⟩ := a
  obtain ⟨b1, b2, b3, b4, b5⟩ := b
  obtain ⟨c1, c2, c3, c4, c5⟩ := c
  simp only [keyLt5, keyLt4, keyLt3, keyLt2] at *
  omega

theorem keyLt5_negtrans {a b c : K5} (h1 : ¬ keyLt5 a b) (h2 : ¬ keyLt5 b c) :
    ¬ keyLt5 a c := by
  obtain ⟨a1, a2, a3, a4, a5⟩ := a
  obtain ⟨b1, b2, b3, b4, b5⟩ := b
  obtain ⟨c1, c2, c3, c4, c5⟩ := c
  simp only [keyLt5, keyLt4, keyLt3, keyLt2] at *
  omega

theorem keyLt3_irrefl (a : K3) : ¬ keyLt3 a a := by
  obtain ⟨a1, a2, a3⟩ := a
  simp only [keyLt3, keyLt2]
  omega

theorem keyLt3_trans {a b c : K3} (h1 : keyLt3 a b) (h2 : keyLt3 b c) : keyLt3 a c := by
  obtain ⟨a1, a2, a3⟩ := a
  obtain ⟨b1, b2, b3⟩ := b
  obtain ⟨c1, c2, c3⟩ := c
  simp only [keyLt3, keyLt2] at *
  omega

theorem keyLt3_negtrans {a b c : K3} (h1 : ¬ keyLt3 a b) (h2 : ¬ keyLt3 b c) :
    ¬ keyLt3 a c := by
  obtain ⟨a1, a2, a3⟩ := a
  obtain ⟨b1, b2, b3⟩ := b
  obtain ⟨c1, c2, c3⟩ := c
  simp only [keyLt3, keyLt2] at *
  omega

/-- First element of `l` attaining the minimum of the strict comparison `lt`:
this is exactly `sorted(l, key)[0]` for Python's stable sort (wrapped in
`Option` for the empty list). -/
def argminFirst (lt : α → α → Bool) : List α → Option α
  | [] => none
  | x :: xs => some (xs.foldl (fun best r => if lt r best then r else best) x)

theorem argminFirst_aux (lt : α → α → Bool)
    (htrans : ∀ a b c, lt a b = true → lt b c = true → lt a c = true)
    (hneg : ∀ a b c, lt a b = false → lt b c = false → lt a c = false)
    (hirr : ∀ a, lt a a = false)
    (xs : List α) : ∀ cur,
      (xs.foldl (fun best r => if lt r best then r else best) cur = cur ∨
        xs.foldl (fun best r => if lt r best then r else best) cur ∈ xs) ∧
      lt cur (xs.foldl (fun best r => if lt r best then r else best) cur) = false ∧
      ∀ r ∈ xs, lt r (xs.foldl (fun best r => if lt r best then r else best) cur) = false := by
  induction xs with
  | nil => intro cur; exact ⟨Or.inl rfl, hirr cur, by simp⟩
  | cons y ys ih =>
    intro cur
    simp only [List.foldl_cons]
    obtain ⟨hmem, hcur, hall⟩ := ih (if lt y cur then y else cur)
    by_cases hy : lt y cur = true
    · simp only [hy, if_true] at hmem hcur hall ⊢
      refine ⟨?_, ?_, ?_⟩
      · rcases hmem with h | h
        · exact Or.inr (by rw [h]; exact List.mem_cons_self y ys)
        · exact Or.inr (List.mem_cons_of_mem y h)
      · -- result ≤ y < cur, hence ¬ lt cur result
        cases hres : lt cur (ys.foldl (fun best r => if lt r best then r else best) y) with
        | false => rfl
        | true => exact absurd (htrans y cur _ hy hres) (by simp [hcur])
      · intro r hr
        rcases List.mem_cons.1 hr with rfl | hr
        · exact hcur
        · exact hall r hr
    · have hy' : lt y cur = false := by simpa using hy
      simp only [hy', if_false] at hmem hcur hall ⊢
      refine ⟨?_, hcur, ?_⟩
      · rcases hmem with h | h
        · exact Or.inl h
        · exact Or.inr (List.mem_cons_of_mem y h)
      · intro r hr
        rcases List.mem_cons.1 hr with rfl | hr
        · exact hneg r cur _ hy' hcur
        · exact hall r hr

theorem argminFirst_spec (lt : α → α → Bool)
    (htrans : ∀ a b c, lt a b = true → lt b c = true → lt a c = true)
    (hneg : ∀ a b c, lt a b = false → lt b c = false → lt a c = false)
    (hirr : ∀ a, lt a a = false)
    (l : List α) (b : α) (hb : argminFirst lt l = some b) :
    b ∈ l ∧ ∀ r ∈ l, lt r b = false := by
  cases l with
  | nil => simp [argminFirst] at hb
  | cons x xs =>
    simp only [argminFirst, Option.some.injEq] at hb
    obtain ⟨hmem, hcur, hall⟩ := argminFirst_aux lt htrans hneg hirr xs x
    subst hb
    constructor
    · rcases hmem with h | h
      · rw [h]; exact List.mem_cons_self x xs
      · exact List.mem_cons_of_mem x h
    · intro r hr
      rcases List.mem_cons.1 hr with rfl | hr
      · exact hcur
      · exact hall r hr

theorem argminFirst_pair (lt : α → α → Bool) (a b : α) :
    argminFirst lt [a, b] = some (if lt b a then b else a) := by
  simp [argminFirst]

/-- Stable insertion of `x` into a list (used to model Python's stable sorts). -/
def insertSortedBy (le : α → α → Bool) (x : α) : List α → List α
  | [] => [x]
  | y :: ys => if le x y then x :: y :: ys else y :: insertSortedBy le x ys

/-- Stable insertion sort by a boolean `le` (models `sorted(...)` / `order_by`). -/
def sortBy (le : α → α → Bool) : List α → List α
  | [] => []
  | x :: xs => insertSortedBy le x (sortBy le xs)

/-!  ## Raw readings and the two best-row selectors

`RawRow` embeds `models.MeterDataRaw` (fields relevant to the core;
`estimation_method` is carried because `consolidation_counters.py` and
`estimation_allocation.py` read/write it).  `source_id` refers to a
`DataSource`, whose priority is supplied as a function `prio` (the
`src_priority` cache built by the consolidators). -/

structure RawRow where
  id : Nat
  meter_no : String
  timestamp : Int
  bucket_ts : Int
  active_import : Option ℚ := none
  active_import_t1 : Option ℚ := none
  active_import_t2 : Option ℚ := none
  active_import_t3 : Option ℚ := none
  active_import_t4 : Option ℚ := none
  active_export : Option ℚ := none
  active_export_t1 : Option ℚ := none
  active_export_t2 : Option ℚ := none
  active_export_t3 : Option ℚ := none
  active_export_t4 : Option ℚ := none
  reactive_import : Option ℚ := none
  reactive_export : Option ℚ := none
  reactive_q1 : Option ℚ := none
  reactive_q2 : Option ℚ := none
  reactive_q3 : Option ℚ := none
  reactive_q4 : Option ℚ := none
  power_import : Option ℚ := none
  power_export : Option ℚ := none
  constant : Option ℚ := none
  source_id : Nat
  quality : Option String := none
  quality_code : Option Int := none
  estimated : Bool := false
  interpolated : Bool := false
  estimation_method : Option String := none
  reset_detected : Bool := false
  received_at : Option Int := none
deriving DecidableEq

/-- Embeds `services.choose_best_raw`'s quality-kind rank (`qrank`). -/
def qrank (q : Option String) : Int :=
  match q with
  | some "GOOD" => 0
  | some "REPLACED" => 1
  | some "INTERPOLATED" => 2
  | some "ESTIMATED" => 3
  | none => 4
  | some _ => 5

/-- Bools compare as 0/1 in Python sort keys. -/
def boolKey (b : Bool) : Int := if b then 1 else 0

/-- The sort key of `services.choose_best_raw`:
`(estimated, interpolated, qrank(quality), priority, -received_at)`. -/
def chooseKey (prio : Nat → Int) (r : RawRow) : K5 :=
  (boolKey r.estimated, boolKey r.interpolated, qrank r.quality,
    prio r.source_id, -(r.received_at.getD dtMin))

def chooseLt (prio : Nat → Int) (a b : RawRow) : Bool :=
  decide (keyLt5 (chooseKey prio a) (chooseKey prio b))

/-- Embeds `services.choose_best_raw`: stable sort by `chooseKey`, take the head. -/
def chooseBestRaw (prio : Nat → Int) (rows : List RawRow) : Option RawRow :=
  argminFirst (chooseLt prio) rows

/-- The sort key used by `consolidation_counters.consolidate_raw_to_canonical_counters`:
`(-(quality_code or 0), -priority, received_at or datetime.min)`, ascending. -/
def countersKey (prio : Nat → Int) (r : RawRow) : K3 :=
  (-(r.quality_code.getD 0), -(prio r.source_id), r.received_at.getD dtMin)

def countersLt (prio : Nat → Int) (a b : RawRow) : Bool :=
  decide (keyLt3 (countersKey prio a) (countersKey prio b))

/-- Best row of a `(meter_no, bucket_ts)` group in the counters consolidator
(`rows.sort(key=...); best = rows[0]`). -/
def countersBest (prio : Nat → Int) (rows : List RawRow) : Option RawRow :=
  argminFirst (countersLt prio) rows

/-- The `defaults` dict written into canonical `MeterData` by
`consolidate_raw_to_canonical_counters` (its exact field set). -/
structure CanonicalWrite where
  meter_no : String
  timestamp : Int
  active_import : Option ℚ
  active_export : Option ℚ
  reactive_import : Option ℚ
  reactive_export : Option ℚ
  reactive_q1 : Option ℚ
  reactive_q2 : Option ℚ
  reactive_q3 : Option ℚ
  reactive_q4 : Option ℚ
  power_import : Option ℚ
  power_export : Option ℚ
  constant : Option ℚ
  chosen_raw_id : Nat
  chosen_source_code : String
  quality : Option String
  estimated : Bool
  estimation_method : Option String
  reset_detected : Bool
deriving DecidableEq

/-- Canonical upsert payload built from the winning raw row
(`codeOf` is the `DataSource.get(id=...).code` lookup). -/
def canonicalWriteOf (codeOf : Nat → String) (mn : String) (bts : Int)
    (best : RawRow) : CanonicalWrite where
  meter_no := mn
  timestamp := bts
  active_import := best.active_import
  active_export := best.active_export
  reactive_import := best.reactive_import
  reactive_export := best.reactive_export
  reactive_q1 := best.reactive_q1
  reactive_q2 := best.reactive_q2
  reactive_q3 := best.reactive_q3
  reactive_q4 := best.reactive_q4
  power_import := best.power_import
  power_export := best.power_export
  constant := best.constant
  chosen_raw_id := best.id
  chosen_source_code := codeOf best.source_id
  quality := best.quality
  estimated := best.estimated
  estimation_method := best.estimation_method
  reset_detected := best.reset_detected

/-- One `(meter_no, bucket_ts)` group of the counters consolidator: pick the
best row and form the canonical upsert payload. -/
def consolidateCountersGroup (prio : Nat → Int) (codeOf : Nat → String)
    (mn : String) (bts : Int) (rows : List RawRow) : Option CanonicalWrite :=
  (countersBest prio rows).map (canonicalWriteOf codeOf mn bts)

/-!  ## Ingestion payloads and the estimation allocator's synthetic rows

Default source priorities supplied to `DataSource.get_or_create` by
`ingest_sdi.py` and `estimation_allocation.py`. -/

/-- Priority default of the dedicated estimation source `ESTIMATE_CLIENT_SCOPE`
(`estimation_allocation._source_estimate_scope`). -/
def estimateScopePriority : Int := 10

/-- Priority passed for source `SDI_PROC_TV` in `ingest_mysql_tv_counters`. -/
def tvSourcePriority : Int := 80

/-- Priority passed for source `SDI_PROC_BUCKETS` in `ingest_mysql_bucket_counters`. -/
def bucketsSourcePriority : Int := 70

/-- Default `priority` parameter of `ingest_sdi._get_or_create_source`. -/
def defaultIngestPriority : Int := 50

/-- Input row of `ingest_mysql_tv_counters` (keys `tv`, `EA+`, ..., `quality`,
`reset_mark`). -/
structure TvRowIn where
  tv : Int
  ea_plus : Option ℚ := none
  ea_minus : Option ℚ := none
  er_plus : Option ℚ := none
  er_minus : Option ℚ := none
  r_q1 : Option ℚ := none
  r_q2 : Option ℚ := none
  r_q3 : Option ℚ := none
  r_q4 : Option ℚ := none
  constant : Option ℚ := none
  quality : Option Int := none
  reset_mark : Int := 0
deriving DecidableEq

/-- The `MeterDataRaw` payload written by `ingest_mysql_tv_counters`
(`quality_default` is the keyword argument, 95 by default at call sites). -/
def tvPayload (meter_no : String) (qualityDefault : Int) (srcId : Nat)
    (r : TvRowIn) : RawRow where
  id := 0
  meter_no := meter_no
  timestamp := r.tv
  bucket_ts := r.tv
  active_import := r.ea_plus
  active_export := r.ea_minus
  reactive_import := r.er_plus
  reactive_export := r.er_minus
  reactive_q1 := r.r_q1
  reactive_q2 := r.r_q2
  reactive_q3 := r.r_q3
  reactive_q4 := r.r_q4
  constant := r.constant
  source_id := srcId
  quality := some "GOOD"
  quality_code := some (r.quality.getD qualityDefault)
  estimated := false
  estimation_method := none
  reset_detected := decide (r.reset_mark ≠ 0)

/-- Input row of `ingest_mysql_bucket_counters`. -/
structure BucketRowIn where
  bucket_end : Int
  ea_plus_end : Option ℚ := none
  ea_minus_end : Option ℚ := none
  er_plus_end : Option ℚ := none
  er_minus_end : Option ℚ := none
  r_q1_end : Option ℚ := none
  r_q2_end : Option ℚ := none
  r_q3_end : Option ℚ := none
  r_q4_end : Option ℚ := none
  constant : Option ℚ := none
  reset_steps : Int := 0
deriving DecidableEq

/-- The `MeterDataRaw` payload written by `ingest_mysql_bucket_counters`:
`qcode = max(10, quality_base - 10 * reset_steps)` with `quality_base = 90`. -/
def bucketsPayload (meter_no : String) (qualityBase : Int) (srcId : Nat)
    (r : BucketRowIn) : RawRow where
  id := 0
  meter_no := meter_no
  timestamp := r.bucket_end
  bucket_ts := r.bucket_end
  active_import := r.ea_plus_end
  active_export := r.ea_minus_end
  reactive_import := r.er_plus_end
  reactive_export := r.er_minus_end
  reactive_q1 := r.r_q1_end
  reactive_q2 := r.r_q2_end
  reactive_q3 := r.r_q3_end
  reactive_q4 := r.r_q4_end
  constant := r.constant
  source_id := srcId
  quality := some "GOOD"
  quality_code := some (intMax 10 (qualityBase - 10 * r.reset_steps))
  estimated := false
  estimation_method := none
  reset_detected := decide (r.reset_steps > 0)

/-- One `ScopeEstimate` row (external input of the estimation allocator). -/
structure ScopeEstimateM where
  scope : String
  scope_id : Nat
  bucket_ts : Int
  ea_plus : Option ℚ := none
  ea_minus : Option ℚ := none
  er_plus : Option ℚ := none
  er_minus : Option ℚ := none
  rq1 : Option ℚ := none
  rq2 : Option ℚ := none
  rq3 : Option ℚ := none
  rq4 : Option ℚ := none
  estimation_method : Option String := none
deriving DecidableEq

/-- The eight channel values of the latest canonical reading at or before the
bucket (the allocator's `prev` baseline; absent row = all `none`). -/
structure PrevVals where
  active_import : Option ℚ := none
  active_export : Option ℚ := none
  reactive_import : Option ℚ := none
  reactive_export : Option ℚ := none
  reactive_q1 : Option ℚ := none
  reactive_q2 : Option ℚ := none
  reactive_q3 : Option ℚ := none
  reactive_q4 : Option ℚ := none
deriving DecidableEq

/-- The allocator's `add(prev_v, inc) = float(prev_v or 0.0) + float(inc or 0.0) * w`. -/
def allocAdd (prev_v inc : Option ℚ) (w : ℚ) : ℚ := prev_v.getD 0 + inc.getD 0 * w

/-- The synthetic `MeterDataRaw` payload written per meter and bucket by
`allocate_scope_estimates_to_meters` (weight `w`, estimation source `srcId`). -/
def allocPayload (mn : String) (bts : Int) (srcId : Nat) (prev : PrevVals)
    (e : ScopeEstimateM) (w : ℚ) : RawRow where
  id := 0
  meter_no := mn
  timestamp := bts
  bucket_ts := bts
  active_import := some (allocAdd prev.active_import e.ea_plus w)
  active_export := some (allocAdd prev.active_export e.ea_minus w)
  reactive_import := some (allocAdd prev.reactive_import e.er_plus w)
  reactive_export := some (allocAdd prev.reactive_export e.er_minus w)
  reactive_q1 := some (allocAdd prev.reactive_q1 e.rq1 w)
  reactive_q2 := some (allocAdd prev.reactive_q2 e.rq2 w)
  reactive_q3 := some (allocAdd prev.reactive_q3 e.rq3 w)
  reactive_q4 := some (allocAdd prev.reactive_q4 e.rq4 w)
  constant := none
  source_id := srcId
  quality := some "ESTIMATED"
  quality_code := some 50
  estimated := true
  estimation_method := some (e.estimation_method.getD "scope_alloc_v1")
  reset_detected := false

/-!  ## Data model (entity rows relevant to scope resolution and billing) -/

structure MeterM where
  id : Nat
  meter_no : String
  name : Option String := none
  constant : Option ℚ := none
deriving DecidableEq

/-- A row of one of the three parallel assignment tables, projected to
`(meter_id, valid_from, valid_to)` as in `scope_utils._assignments_for_scope`;
`unit_id` is the pod/od_pod/site id of the table it came from. -/
structure AssignRow where
  unit_id : Nat
  meter_id : Nat
  valid_from : Int
  valid_to : Option Int := none
deriving DecidableEq

structure MeterReplacementM where
  old_meter_id : Nat
  new_meter_id : Nat
  replacement_ts : Int
  handover_read_active_import : Option ℚ := none
deriving DecidableEq

structure TariffM where
  id : Nat
  code : String
deriving DecidableEq

structure TariffAssignmentM where
  id : Nat
  site_id : Option Nat := none
  od_pod_id : Option Nat := none
  pod_id : Option Nat := none
  tariff_id : Nat
  operator : Option String := none
  valid_from : Option Int := none
  valid_to : Option Int := none
  is_primary : Bool := true
  price_override_cents : Option Int := none
  discount_percent : Option ℚ := none
deriving DecidableEq

structure TariffOperatorPriceM where
  tariff_id : Nat
  operator : String
  price : ℚ
deriving DecidableEq

structure OfferM where
  id : Nat
  tariff_id : Nat
  operator : Option String := none
  unit_price_cents : Option Int := none
  discount_percent : Option ℚ := none
  valid_from : Int
  valid_to : Option Int := none
  active : Bool := true
deriving DecidableEq

structure OfferScopeM where
  offer_id : Nat
  scope_type : String
  scope_id : Nat
deriving DecidableEq

structure VatRateHistoryM where
  rate_percent : ℚ
  valid_from : Int
  valid_to : Option Int := none
deriving DecidableEq

/-- A canonical `MeterData` row (fields used by the billing path). -/
structure MeterDataM where
  meter_no : String
  timestamp : Int
  active_import : ℚ := 0
  active_import_t1 : ℚ := 0
  active_import_t2 : ℚ := 0
  active_import_t3 : ℚ := 0
  active_import_t4 : ℚ := 0
  active_export : ℚ := 0
  active_export_t1 : ℚ := 0
  active_export_t2 : ℚ := 0
  active_export_t3 : ℚ := 0
  active_export_t4 : ℚ := 0
  reactive_import : ℚ := 0
  reactive_export : ℚ := 0
  reactive_q1 : ℚ := 0
  reactive_q2 : ℚ := 0
  reactive_q3 : ℚ := 0
  reactive_q4 : ℚ := 0
  power_import : ℚ := 0
  power_export : ℚ := 0
  constant : Option ℚ := none
  quality : Option String := none
  estimated : Bool := false
  interpolated : Bool := false
  reset_detected : Bool := false
deriving DecidableEq

/-- The in-memory database over which the embedded operations run. -/
structure DB where
  meters : List MeterM := []
  meterData : List MeterDataM := []
  meterAssignments : List AssignRow := []
  odPodAssignments : List AssignRow := []
  siteAssignments : List AssignRow := []
  replacements : List MeterReplacementM := []
  tariffs : List TariffM := []
  tariffAssignments : List TariffAssignmentM := []
  operatorPrices : List TariffOperatorPriceM := []
  offers : List OfferM := []
  offerScopes : List OfferScopeM := []
  vatHistory : List VatRateHistoryM := []
deriving DecidableEq

/-!  ## Scope resolution (`services/scope_utils.py`) -/

/-- Embeds `scope_utils._overlaps`: half-open interval overlap, `None` end = +∞
(`datetime.max` in the source, which exceeds every timestamp in use). -/
def overlapsHalfOpen (aStart : Int) (aEnd : Option Int) (bStart : Int) (bEnd : Option Int) :
    Bool :=
  (match bEnd with
    | none => true
    | some be => decide (aStart < be)) &&
  (match aEnd with
    | none => true
    | some ae => decide (bStart < ae))

/-- Embeds `scope_utils._assignments_for_scope`: raw assignment rows of the scope,
without time filtering (unknown scope type yields `[]`). -/
def assignmentsForScope (db : DB) (scope : String) (scope_id : Nat) : List AssignRow :=
  if scope = "pod" then db.meterAssignments.filter (fun a => a.unit_id = scope_id)
  else if scope = "od_pod" then db.odPodAssignments.filter (fun a => a.unit_id = scope_id)
  else if scope = "site" then db.siteAssignments.filter (fun a => a.unit_id = scope_id)
  else []

/-- Embeds `scope_utils.meters_in_scope_during`: meters whose assignment overlaps
`[start, end)`. -/
def metersInScopeDuring (db : DB) (scope : String) (scope_id : Nat)
    (start endT : Int) : List MeterM :=
  let rows := assignmentsForScope db scope scope_id
  let overlappingIds := (rows.filter
    (fun r => overlapsHalfOpen r.valid_from r.valid_to start (some endT))).map
      (fun r => r.meter_id)
  if overlappingIds = [] then []
  else db.meters.filter (fun m => overlappingIds.contains m.id)

/-- One output item of `meter_segments_for_scope_during`
(`from`/`to` are Lean keywords, hence `segFrom`/`segTo`). -/
structure SegmentM where
  meter_id : Nat
  meter_no : Option String
  segFrom : Int
  segTo : Int
  handover_from_prev : Option ℚ
deriving DecidableEq

/-- Sort key of the final `segments.sort(key=(from, meter_id))`. -/
def segLe (a b : SegmentM) : Bool :=
  decide (a.segFrom < b.segFrom ∨ (a.segFrom = b.segFrom ∧ a.meter_id ≤ b.meter_id))

/-- The replacement-splitting loop body of `meter_segments_for_scope_during`
(the `for rep in reps_here` loop, run when `reps_here` is non-empty; the
trailing `if cursor < seg_end and not reps_here` branch is unreachable there). -/
def repLoop (meterNoOf : Nat → Option String) (mid : Nat) (segEnd : Int) :
    List MeterReplacementM → Int → List SegmentM
  | [], _ => []
  | rp :: rest, cursor =>
    if rp.replacement_ts ≤ cursor ∨ segEnd ≤ rp.replacement_ts then
      repLoop meterNoOf mid segEnd rest cursor
    else
      { meter_id := mid, meter_no := meterNoOf mid, segFrom := cursor,
        segTo := rp.replacement_ts, handover_from_prev := none } ::
      { meter_id := rp.new_meter_id, meter_no := meterNoOf rp.new_meter_id,
        segFrom := rp.replacement_ts, segTo := segEnd,
        handover_from_prev := rp.handover_read_active_import } ::
      repLoop meterNoOf mid segEnd rest rp.replacement_ts

/-- Splitting of one clipped base segment by the replacement events of its
meter (the body of the `for mid, seg_start, seg_end in base_segments` loop in
the `apply_replacements` branch). -/
def baseSegmentSplit (meterNoOf : Nat → Option String)
    (reps : List MeterReplacementM) (seg : Nat × Int × Int) : List SegmentM :=
  let repsHere := sortBy (fun a b => decide (a.replacement_ts ≤ b.replacement_ts))
    (reps.filter (fun rp => rp.old_meter_id = seg.1))
  if repsHere = [] then
    [{ meter_id := seg.1, meter_no := meterNoOf seg.1, segFrom := seg.2.1,
       segTo := seg.2.2, handover_from_prev := none }]
  else
    repLoop meterNoOf seg.1 seg.2.2 repsHere seg.2.1

/-- Embeds `scope_utils.meter_segments_for_scope_during`. -/
def meterSegmentsForScopeDuring (db : DB) (scope : String) (scope_id : Nat)
    (start endT : Int) (applyReplacements : Bool) : List SegmentM :=
  let rows := assignmentsForScope db scope scope_id
  let baseSegments : List (Nat × Int × Int) := rows.filterMap (fun r =>
    if overlapsHalfOpen r.valid_from r.valid_to start (some endT) then
      some (r.meter_id, intMax r.valid_from start, intMin (r.valid_to.getD endT) endT)
    else none)
  if baseSegments = [] then []
  else
    -- the `meters` dict is fetched with `id__in=meter_ids` (ids of the base
    -- segments only), so `meters.get` misses meters outside the base segments
    let baseIds := baseSegments.map (fun seg => seg.1)
    let meterNoOf : Nat → Option String := fun mid =>
      if baseIds.contains mid then
        (db.meters.find? (fun m => m.id = mid)).map (fun m => m.meter_no)
      else none
    let segments :=
      if applyReplacements then
        let reps := db.replacements.filter
          (fun rp => start ≤ rp.replacement_ts ∧ rp.replacement_ts < endT)
        baseSegments.flatMap (baseSegmentSplit meterNoOf reps)
      else
        baseSegments.map (fun seg =>
          { meter_id := seg.1, meter_no := meterNoOf seg.1, segFrom := seg.2.1,
            segTo := seg.2.2, handover_from_prev := none })
    sortBy segLe segments

/-!  ## Billing (`services/services.py`) -/

/-- Embeds `services.meters_in_scope`: note there is NO time filtering here — every
assignment row of the scope unit contributes its meter. -/
def metersInScope (db : DB) (scope : String) (scope_id : Nat) : List MeterM :=
  if scope = "pod" then
    let ids := (db.meterAssignments.filter (fun a => a.unit_id = scope_id)).map
      (fun a => a.meter_id)
    db.meters.filter (fun m => ids.contains m.id)
  else if scope = "od_pod" then
    let ids := (db.odPodAssignments.filter (fun a => a.unit_id = scope_id)).map
      (fun a => a.meter_id)
    db.meters.filter (fun m => ids.contains m.id)
  else if scope = "site" then
    let ids := (db.siteAssignments.filter (fun a => a.unit_id = scope_id)).map
      (fun a => a.meter_id)
    db.meters.filter (fun m => ids.contains m.id)
  else []

/-- First row of a list attaining the maximal `valid_from`
(`order_by("-valid_from").first()`; ties are DB-order). -/
def firstByValidFromDesc (l : List VatRateHistoryM) : Option VatRateHistoryM :=
  argminFirst (fun a b => decide (b.valid_from < a.valid_from)) l

/-- Embeds `services.resolve_vat_rate_at`. -/
def resolveVatRateAt (db : DB) (at_ts : Int) : ℚ :=
  match firstByValidFromDesc (db.vatHistory.filter (fun v => v.valid_from ≤ at_ts)) with
  | none => 0
  | some vat =>
    match vat.valid_to with
    | none => vat.rate_percent
    | some vt => if at_ts < vt then vat.rate_percent else 0

/-- The `valid_q` filter inside `services.tariff_assignment_at`. -/
def taValidAt (at_ts : Int) (ta : TariffAssignmentM) : Bool :=
  (match ta.valid_from with
    | none => true
    | some vf => decide (vf ≤ at_ts)) &&
  (match ta.valid_to with
    | none => true
    | some vt => decide (at_ts < vt))

/-- Ordering key of `.order_by("-is_primary", "-valid_from")`; a NULL
`valid_from` is taken as smallest (ties and NULL placement are DB-order in the
source; every use in the theorems below has at most one candidate). -/
def taOrderLt (a b : TariffAssignmentM) : Bool :=
  decide (keyLt2 ((if a.is_primary then 0 else 1), -(a.valid_from.getD dtMin))
    ((if b.is_primary then 0 else 1), -(b.valid_from.getD dtMin)))

/-- Embeds `services.tariff_assignment_at`: pod-level first, then od_pod, then an
unconditional site-level fallback; then the (vacuous) operator refinement. -/
def tariffAssignmentAt (db : DB) (scope : String) (scope_id : Nat) (at_ts : Int)
    (operator : Option String) : Option TariffAssignmentM :=
  let pick := fun (p : TariffAssignmentM → Bool) =>
    argminFirst taOrderLt ((db.tariffAssignments.filter p).filter (taValidAt at_ts))
  let ta0 : Option TariffAssignmentM :=
    if scope = "pod" then pick (fun ta => ta.pod_id = some scope_id) else none
  let ta1 := match ta0 with
    | some t => some t
    | none =>
      if scope = "pod" ∨ scope = "od_pod" then
        pick (fun ta => ta.od_pod_id = some scope_id)
      else none
  let ta2 := match ta1 with
    | some t => some t
    | none => pick (fun ta => ta.site_id = some scope_id)
  match ta2 with
  | none => none
  | some ta =>
    if operator ≠ none ∧ ta.operator ≠ none ∧ ta.operator ≠ operator then
      match (db.tariffAssignments.filter
          (fun x => x.id = ta.id ∧ x.operator = operator)).head? with
      | some alt => some alt
      | none => some ta
    else some ta

/-- Embeds `services.offer_for`. -/
def offerFor (db : DB) (scope : String) (scope_id : Nat) (tariff_id : Nat)
    (operator : Option String) (at_ts : Int) : Option OfferM :=
  let qs := db.offers.filter (fun o =>
    decide (o.tariff_id = tariff_id) && decide (o.active = true) &&
    decide (o.valid_from ≤ at_ts) &&
    (match o.valid_to with
      | none => true
      | some vt => decide (at_ts < vt)))
  let qs := match operator with
    | none => qs
    | some op => qs.filter (fun o => o.operator = some op ∨ o.operator = none)
  qs.find? (fun o => db.offerScopes.any
    (fun s => s.offer_id = o.id ∧ s.scope_type = scope ∧ s.scope_id = scope_id))

/-- Minimum of a non-empty list of rationals (`min(p.price for p in prices)`). -/
def listMinQ (x : ℚ) (l : List ℚ) : ℚ := l.foldl qMin x

/-- Embeds `services.operator_price_cents`. -/
def operatorPriceCents (db : DB) (tariff_id : Nat) (operator : Option String) :
    Option Int :=
  match operator with
  | none =>
    match db.operatorPrices.filter (fun p => p.tariff_id = tariff_id) with
    | [] => none
    | p :: ps => some (pyInt (listMinQ p.price (ps.map (fun q => q.price)) * 100))
  | some op =>
    match (db.operatorPrices.filter
        (fun p => p.tariff_id = tariff_id ∧ p.operator = op)).head? with
    | some p => some (pyInt (p.price * 100))
    | none => none

/-- Truthiness of `ta.discount_percent` (`None` and `0.0` are falsy). -/
def discountTruthy (d : Option ℚ) : Bool :=
  match d with
  | none => false
  | some v => decide (v ≠ 0)

/-- Embeds `services.resolve_unit_price_cents`; the only `raise` is modelled as
`Except.error "No operator price available for tariff"`. -/
def resolveUnitPriceCents (db : DB) (scope : String) (scope_id : Nat)
    (ta : TariffAssignmentM) (at_ts : Int) : Except String Int :=
  match offerFor db scope scope_id ta.tariff_id ta.operator at_ts with
  | some off =>
    match off.unit_price_cents with
    | some c => .ok c
    | none =>
      match operatorPriceCents db ta.tariff_id (off.operator.orElse (fun _ => ta.operator)) with
      | none => .error "No operator price available for tariff"
      | some base =>
        .ok (pythonRound ((base : ℚ) * (1 - (off.discount_percent.getD 0) / 100)))
  | none =>
    match ta.price_override_cents with
    | some c => .ok c
    | none =>
      match operatorPriceCents db ta.tariff_id ta.operator with
      | none => .error "No operator price available for tariff"
      | some base =>
        if discountTruthy ta.discount_percent then
          .ok (pythonRound ((base : ℚ) * (1 - (ta.discount_percent.getD 0) / 100)))
        else .ok base

/-- The `TariffAssignment` filter inside `services.slice_boundaries`:
`Q(site_id=sid if scope=="site" else None) | Q(od_pod_id=...) | Q(pod_id=...)`
(`Q(column=None)` matches NULL). -/
def sliceTaMatch (scope : String) (scope_id : Nat) (ta : TariffAssignmentM) : Bool :=
  decide (ta.site_id = (if scope = "site" then some scope_id else none)) ||
  decide (ta.od_pod_id = (if scope = "od_pod" then some scope_id else none)) ||
  decide (ta.pod_id = (if scope = "pod" then some scope_id else none))

/-- The boundary points collected by `services.slice_boundaries`, before
dedup/sort. -/
def sliceBoundaryPoints (db : DB) (scope : String) (scope_id : Nat)
    (start endT : Int) : List Int :=
  [start, endT] ++
  (db.tariffAssignments.filter (sliceTaMatch scope scope_id)).flatMap (fun ta =>
    (match ta.valid_from with
      | some vf => if start < vf ∧ vf < endT then [vf] else []
      | none => []) ++
    (match ta.valid_to with
      | some vt => if start < vt ∧ vt < endT then [vt] else []
      | none => [])) ++
  (db.vatHistory.filter (fun v => v.valid_from < endT)).flatMap (fun v =>
    (if start < v.valid_from ∧ v.valid_from < endT then [v.valid_from] else []) ++
    (match v.valid_to with
      | some vt => if start < vt ∧ vt < endT then [vt] else []
      | none => []))

/-- Embeds `services.slice_boundaries`: sorted-set = dedup then sort ascending. -/
def sliceBoundaries (db : DB) (scope : String) (scope_id : Nat)
    (start endT : Int) : List Int :=
  ((sliceBoundaryPoints db scope scope_id start endT).dedup).insertionSort (· ≤ ·)

/-- The ten per-band energies returned by `services.energy_by_band`. -/
structure EnergyBands where
  aPlus : ℚ := 0
  aMinus : ℚ := 0
  aPlusT1 : ℚ := 0
  aPlusT2 : ℚ := 0
  aPlusT3 : ℚ := 0
  aPlusT4 : ℚ := 0
  aMinusT1 : ℚ := 0
  aMinusT2 : ℚ := 0
  aMinusT3 : ℚ := 0
  aMinusT4 : ℚ := 0
deriving DecidableEq

/-- The per-channel `delta` loop of `services.energy_by_band`:
`step = (vals[i] - vals[i-1]) * (buckets[i].constant or 1.0)`, clamped to 0,
summed (the clamp applies AFTER the constant multiplication). -/
def deltaGo (get : MeterDataM → ℚ) : MeterDataM → List MeterDataM → ℚ
  | _, [] => 0
  | prev, c :: cs =>
    let step := (get c - get prev) * (c.constant.getD 1)
    (if step < 0 then 0 else step) + deltaGo get c cs

def deltaChan (get : MeterDataM → ℚ) : List MeterDataM → ℚ
  | [] => 0
  | b :: bs => deltaGo get b bs

/-- Embeds `services.energy_by_band`: canonical buckets with `s ≤ timestamp < e`,
ordered by timestamp (an empty range yields all-zero bands, as does the
explicit early return in the source). -/
def energyByBand (db : DB) (meter_no : String) (s e : Int) : EnergyBands :=
  let buckets := sortBy (fun a b => decide (a.timestamp ≤ b.timestamp))
    (db.meterData.filter (fun b => b.meter_no = meter_no ∧ s ≤ b.timestamp ∧ b.timestamp < e))
  { aPlus := deltaChan (fun b => b.active_import) buckets
    aMinus := deltaChan (fun b => b.active_export) buckets
    aPlusT1 := deltaChan (fun b => b.active_import_t1) buckets
    aPlusT2 := deltaChan (fun b => b.active_import_t2) buckets
    aPlusT3 := deltaChan (fun b => b.active_import_t3) buckets
    aPlusT4 := deltaChan (fun b => b.active_import_t4) buckets
    aMinusT1 := deltaChan (fun b => b.active_export_t1) buckets
    aMinusT2 := deltaChan (fun b => b.active_export_t2) buckets
    aMinusT3 := deltaChan (fun b => b.active_export_t3) buckets
    aMinusT4 := deltaChan (fun b => b.active_export_t4) buckets }

/-- Embeds `services.slice_contains_estimated`. -/
def sliceContainsEstimated (db : DB) (meter_no : String) (s e : Int) : Bool :=
  db.meterData.any (fun b =>
    b.meter_no = meter_no ∧ s ≤ b.timestamp ∧ b.timestamp < e ∧
    (b.estimated = true ∨ b.interpolated = true))

structure BillingLineM where
  meter_no : String
  tariff_code : String
  unit : String
  quantity : ℚ
  unit_price_cents : Int
  amount_cents : Int
  vat_rate_percent : ℚ
  vat_amount_cents : Int
  contains_estimated : Bool
  period_start : Int
  period_end : Int
  channel : String
  tou_band : Option String
  is_true_up : Bool
deriving DecidableEq

structure BillingDocM where
  doc_type : String
  customer_id : String
  period_start : Int
  period_end : Int
  currency : String
  status : String
  lines : List BillingLineM
  subtotal_cents : Int
  vat_cents : Int
  total_cents : Int
  contains_estimated : Bool
deriving DecidableEq

/-- The `for channel, band, qty in items` loop: skip non-positive quantities,
otherwise emit a line and accumulate `(subtotal, vat_total)`. -/
def itemLines (mn tcode : String) (upc : Int) (vr : ℚ) (est : Bool) (s e : Int) :
    List (String × Option String × ℚ) → List BillingLineM × Int × Int
  | [] => ([], 0, 0)
  | (channel, band, qty) :: rest =>
    let (ls, sub, vat) := itemLines mn tcode upc vr est s e rest
    if qty ≤ 0 then (ls, sub, vat)
    else
      let amount := pythonRound (qty * (upc : ℚ))
      let vatAmt := pythonRound ((amount : ℚ) * vr / 100)
      ({ meter_no := mn
         tariff_code := tcode ++ (match band with | some b => ":" ++ b | none => "")
         unit := "kWh"
         quantity := qty
         unit_price_cents := upc
         amount_cents := amount
         vat_rate_percent := vr
         vat_amount_cents := vatAmt
         contains_estimated := est
         period_start := s
         period_end := e
         channel := channel
         tou_band := band
         is_true_up := false } :: ls, amount + sub, vatAmt + vat)

/-- The `for m in meters` loop of one slice: only total A+ is billed
(`items = [("active_import", None, qtys["A+"])]`); the estimated flag is OR-ed
per meter even when no line is emitted. -/
def sliceMeterLines (db : DB) (tcode : String) (upc : Int) (vr : ℚ) (s e : Int) :
    List MeterM → List BillingLineM × Int × Int × Bool
  | [] => ([], 0, 0, false)
  | m :: ms =>
    let qtys := energyByBand db m.meter_no s e
    let est := sliceContainsEstimated db m.meter_no s e
    let (ls, sub, vat) := itemLines m.meter_no tcode upc vr est s e
      [("active_import", none, qtys.aPlus)]
    let (rls, rsub, rvat, rest) := sliceMeterLines db tcode upc vr s e ms
    (ls ++ rls, sub + rsub, vat + rvat, est || rest)

/-- The `for i in range(len(cuts)-1)` loop: per slice resolve the tariff
assignment (skip the slice if none), resolve price (propagating its error) and
VAT, then bill every meter.  `Tariff.get` on a missing id is the DoesNotExist
error. -/
def billSlices (db : DB) (scope : String) (scope_id : Nat) (operator : Option String)
    (meters : List MeterM) :
    List (Int × Int) → Except String (List BillingLineM × Int × Int × Bool)
  | [] => .ok ([], 0, 0, false)
  | (s, e) :: rest =>
    match tariffAssignmentAt db scope scope_id s operator with
    | none => billSlices db scope scope_id operator meters rest
    | some ta =>
      match resolveUnitPriceCents db scope scope_id ta s with
      | .error msg => .error msg
      | .ok upc =>
        let vr := resolveVatRateAt db s
        match db.tariffs.find? (fun t => t.id = ta.tariff_id) with
        | none => .error "Tariff matching query does not exist."
        | some t =>
          let (ls, sub, vat, est) := sliceMeterLines db t.code upc vr s e meters
          match billSlices db scope scope_id operator meters rest with
          | .error msg => .error msg
          | .ok (rls, rsub, rvat, rest') =>
            .ok (ls ++ rls, sub + rsub, vat + rvat, est || rest')

/-- Consecutive boundary pairs `(cuts[i], cuts[i+1])`. -/
def consecutivePairs : List Int → List (Int × Int)
  | [] => []
  | [_] => []
  | a :: b :: rest => (a, b) :: consecutivePairs (b :: rest)

/-- Embeds `services.create_bill_for_scope` (the resulting `BillingDocument` with its
lines; `raise` is `Except.error`). -/
def createBillForScope (db : DB) (customer_id : String) (scope : String)
    (scope_id : Nat) (period_start period_end : Int) (operator : Option String)
    (currency : String) : Except String BillingDocM :=
  if ¬ (period_start < period_end) then .error "Invalid period"
  else
    let meters := metersInScope db scope scope_id
    if meters = [] then .error "No meters in scope for the requested period"
    else
      let cuts := sliceBoundaries db scope scope_id period_start period_end
      match billSlices db scope scope_id operator meters (consecutivePairs cuts) with
      | .error msg => .error msg
      | .ok (ls, sub, vat, est) =>
        .ok { doc_type := "INVOICE"
              customer_id := customer_id
              period_start := period_start
              period_end := period_end
              currency := currency
              status := "DRAFT"
              lines := ls
              subtotal_cents := sub
              vat_cents := vat
              total_cents := sub + vat
              contains_estimated := est }

instance {ε α : Type} [DecidableEq ε] [DecidableEq α] : DecidableEq (Except ε α) :=
  fun x y =>
    match x, y with
    | .ok a, .ok b =>
      if h : a = b then isTrue (by rw [h]) else isFalse (by intro hc; cases hc; exact h rfl)
    | .error a, .error b =>
      if h : a = b then isTrue (by rw [h]) else isFalse (by intro hc; cases hc; exact h rfl)
    | .ok _, .error _ => isFalse (by intro hc; cases hc)
    | .error _, .ok _ => isFalse (by intro hc; cases hc)

/-!  ## DB-backed energy aggregation (`services/energy_unified.py`)

`fetch_energy_db_meterdata` is modelled on its post-query row shape
`(timestamp, fa)`; the calendar bucketing `floor_bucket` is abstracted as a
function `bucketOf` (granularity-dependent, irrelevant to the properties). -/

/-- Embeds the dict update of bucket sums, on an insertion-ordered
association list. -/
def upsertAdd (k : Int) (v : ℚ) : List (Int × ℚ) → List (Int × ℚ)
  | [] => [(k, v)]
  | (k', v') :: rest =>
    if k' = k then (k', v' + v) :: rest else (k', v') :: upsertAdd k v rest

/-- The main loop of `fetch_energy_db_meterdata`: per row, delta against the
previous reading (clamped at 0), accumulated into the row's bucket.
`float(r.get("fa") or 0)` maps both a missing and a zero value to 0. -/
def fetchGo (bucketOf : Int → Int) :
    Option ℚ → List (Int × Option ℚ) → List (Int × ℚ) → List (Int × ℚ)
  | _, [], acc => acc
  | lastFa, (ts, faOpt) :: rest, acc =>
    let bstart := bucketOf ts
    let fa := faOpt.getD 0
    let delta : ℚ := match lastFa with
      | none => 0
      | some lf => let d := fa - lf; if d < 0 then 0 else d
    fetchGo bucketOf (some fa) rest (upsertAdd bstart (qMax delta 0) acc)

/-- Python's `float(constant or 1.0)`: `None` and `0.0` both become `1.0`. -/
def pyOrOne (c : Option ℚ) : ℚ :=
  match c with
  | none => 1
  | some v => if v = 0 then 1 else v

/-- Embeds `fetch_energy_db_meterdata`, reduced to its `(bucket_start, ea_plus)`
content: bucket sums of clamped deltas, sorted by bucket, each multiplied by
the meter constant. -/
def fetchEnergyDbMeterdata (bucketOf : Int → Int) (constant : Option ℚ)
    (rows : List (Int × Option ℚ)) : List (Int × ℚ) :=
  let buckets := fetchGo bucketOf none rows []
  (sortBy (fun a b => decide (a.1 ≤ b.1)) buckets).map
    (fun p => (p.1, p.2 * pyOrOne constant))

/-!  ## Selector specifications -/

theorem chooseBestRaw_min (prio : Nat → Int) (rows : List RawRow) (b : RawRow)
    (hb : chooseBestRaw prio rows = some b) :
    b ∈ rows ∧ ∀ r ∈ rows, ¬ keyLt5 (chooseKey prio r) (chooseKey prio b) := by
  have h := argminFirst_spec (chooseLt prio)
    (fun a b c h1 h2 => by
      simp only [chooseLt, decide_eq_true_eq] at h1 h2 ⊢
      exact keyLt5_trans h1 h2)
    (fun a b c h1 h2 => by
      simp only [chooseLt, decide_eq_false_iff_not] at h1 h2 ⊢
      exact keyLt5_negtrans h1 h2)
    (fun a => by
      simp only [chooseLt, decide_eq_false_iff_not]
      exact keyLt5_irrefl _)
    rows b hb
  refine ⟨h.1, fun r hr => ?_⟩
  have := h.2 r hr
  simpa only [chooseLt, decide_eq_false_iff_not] using this

theorem countersBest_min (prio : Nat → Int) (rows : List RawRow) (b : RawRow)
    (hb : countersBest prio rows = some b) :
    b ∈ rows ∧ ∀ r ∈ rows, ¬ keyLt3 (countersKey prio r) (countersKey prio b) := by
  have h := argminFirst_spec (countersLt prio)
    (fun a b c h1 h2 => by
      simp only [countersLt, decide_eq_true_eq] at h1 h2 ⊢
      exact keyLt3_trans h1 h2)
    (fun a b c h1 h2 => by
      simp only [countersLt, decide_eq_false_iff_not] at h1 h2 ⊢
      exact keyLt3_negtrans h1 h2)
    (fun a => by
      simp only [countersLt, decide_eq_false_iff_not]
      exact keyLt3_irrefl _)
    rows b hb
  refine ⟨h.1, fun r hr => ?_⟩
  have := h.2 r hr
  simpa only [countersLt, decide_eq_false_iff_not] using this

/-- A non-estimated row beats an estimated one under `choose_best_raw`,
in either list order (the first key component decides). -/
theorem chooseBestRaw_pair_est (prio : Nat → Int) (r1 r2 : RawRow)
    (h1 : r1.estimated = false) (h2 : r2.estimated = true) :
    chooseBestRaw prio [r1, r2] = some r1 ∧ chooseBestRaw prio [r2, r1] = some r1 := by
  have hk : keyLt5 (chooseKey prio r1) (chooseKey prio r2) := by
    refine Or.inl ?_
    simp [chooseKey, boolKey, h1, h2]
  have hlt : chooseLt prio r1 r2 = true := by
    simp only [chooseLt, decide_eq_true_eq]; exact hk
  have hnlt : chooseLt prio r2 r1 = false := by
    simp only [chooseLt, decide_eq_false_iff_not]
    intro hcon
    rcases hcon with h | h
    · rcases hk with h' | h'
      · simp only [chooseKey] at h h'; omega
      · simp only [chooseKey] at h h'; omega
    · rcases hk with h' | h'
      · simp only [chooseKey] at h h'; omega
      · simp only [chooseKey] at h h'; omega
  constructor
  · rw [chooseBestRaw, argminFirst_pair, hnlt]; rfl
  · rw [chooseBestRaw, argminFirst_pair, hlt]; rfl

/-- In the counters consolidator a strictly higher `quality_code` wins,
in either list order. -/
theorem countersBest_pair_qc (prio : Nat → Int) (a b : RawRow) (qa qb : Int)
    (ha : a.quality_code = some qa) (hb : b.quality_code = some qb) (hq : qb < qa) :
    countersBest prio [a, b] = some a ∧ countersBest prio [b, a] = some a := by
  have hfa : (countersKey prio a).1 = -qa := by simp [countersKey, ha]
  have hfb : (countersKey prio b).1 = -qb := by simp [countersKey, hb]
  have hk : keyLt3 (countersKey prio a) (countersKey prio b) :=
    Or.inl (by rw [hfa, hfb]; omega)
  have hlt : countersLt prio a b = true := by
    simp only [countersLt, decide_eq_true_eq]; exact hk
  have hnlt : countersLt prio b a = false := by
    simp only [countersLt, decide_eq_false_iff_not]
    intro hcon
    rcases hcon with h | h
    · rw [hfa, hfb] at h; omega
    · rw [hfa, hfb] at h; omega
  constructor
  · rw [countersBest, argminFirst_pair, hnlt]; rfl
  · rw [countersBest, argminFirst_pair, hlt]; rfl

/-!  ## Claim C1 -/

/-- Concrete counterexample data: two rows identical in every ranking input
except the source, one from a priority-1 (preferred-number) source, one from a
priority-80 source. -/
def prioC1 : Nat → Int := fun s => if s = 1 then 1 else 80

def preferredRowC1 : RawRow :=
  { id := 1, meter_no := "M", timestamp := 0, bucket_ts := 0,
    active_import := some 100, source_id := 1, quality := some "GOOD",
    quality_code := some 90, received_at := some 1000 }

def lowRowC1 : RawRow :=
  { id := 2, meter_no := "M", timestamp := 0, bucket_ts := 0,
    active_import := some 200, source_id := 2, quality := some "GOOD",
    quality_code := some 90, received_at := some 1000 }

/-- C1 counterexample: the claim's ranking (the `choose_best_raw` key) ranks
the priority-1 row strictly better, and `choose_best_raw` indeed picks it, but
`consolidate_raw_to_canonical_counters` picks the priority-80 row of the same
group: consolidation does not use "exactly this ascending ranking". -/
theorem C1_counterexample :
    keyLt5 (chooseKey prioC1 preferredRowC1) (chooseKey prioC1 lowRowC1)
    ∧ chooseBestRaw prioC1 [preferredRowC1, lowRowC1] = some preferredRowC1
    ∧ countersBest prioC1 [preferredRowC1, lowRowC1] = some lowRowC1 := by decide

/-- C1 (amended): `choose_best_raw` selects, from every group, a row minimal
under exactly the claimed ascending key
`(estimated, interpolated, qrank, priority, -received_at)` (first minimum on
ties), and a GOOD/non-estimated row always beats an ESTIMATED row there,
regardless of order, priorities and `received_at`; the counters consolidator
instead selects the first minimum of `(-quality_code, -priority, received_at)`,
i.e. highest quality_code, then highest priority number, then earliest
`received_at`. -/
theorem C1_consolidation_ranking :
    (∀ (prio : Nat → Int) (rows : List RawRow) (b : RawRow),
      chooseBestRaw prio rows = some b →
        b ∈ rows ∧ ∀ r ∈ rows, ¬ keyLt5 (chooseKey prio r) (chooseKey prio b))
    ∧
    (∀ (prio : Nat → Int) (r1 r2 : RawRow),
      r1.estimated = false → r1.quality = some "GOOD" →
      r2.estimated = true → r2.quality = some "ESTIMATED" →
        chooseBestRaw prio [r1, r2] = some r1 ∧ chooseBestRaw prio [r2, r1] = some r1)
    ∧
    (∀ (prio : Nat → Int) (rows : List RawRow) (b : RawRow),
      countersBest prio rows = some b →
        b ∈ rows ∧ ∀ r ∈ rows, ¬ keyLt3 (countersKey prio r) (countersKey prio b)) :=
  ⟨chooseBestRaw_min,
    fun prio r1 r2 h1 _ h2 _ => chooseBestRaw_pair_est prio r1 r2 h1 h2,
    countersBest_min⟩

/-- Witness rows for C1: a GOOD real row and an ESTIMATED row. -/
def goodRowW : RawRow :=
  { id := 4, meter_no := "W", timestamp := 0, bucket_ts := 0,
    active_import := some 10, source_id := 9, quality := some "GOOD",
    quality_code := some 95, estimated := false }

def estRowW : RawRow :=
  { id := 3, meter_no := "W", timestamp := 0, bucket_ts := 0,
    active_import := some 7, source_id := 8, quality := some "ESTIMATED",
    quality_code := some 50, estimated := true }

theorem C1_witness :
    chooseBestRaw (fun _ => 0) [goodRowW, estRowW] = some goodRowW ∧
    chooseBestRaw (fun _ => 0) [estRowW, goodRowW] = some goodRowW :=
  C1_consolidation_ranking.2.1 (fun _ => 0) goodRowW estRowW rfl rfl rfl rfl

/-!  ## Claim C4 -/

/-- C4 (amended): a lone synthetic allocator row becomes the canonical write
(and is flagged estimated); a later real row displaces it under the counters
consolidator exactly when its `quality_code` beats the synthetic row's 50 —
in particular any row with `quality_code > 50` displaces it in either group
order — while under `choose_best_raw` any non-estimated row displaces an
estimated one unconditionally. -/
theorem C4_displacement :
    (∀ (prio : Nat → Int) (codeOf : Nat → String) (mn : String) (bts : Int)
        (srcId : Nat) (prev : PrevVals) (e : ScopeEstimateM) (w : ℚ),
      consolidateCountersGroup prio codeOf mn bts [allocPayload mn bts srcId prev e w]
        = some (canonicalWriteOf codeOf mn bts (allocPayload mn bts srcId prev e w))
      ∧ (canonicalWriteOf codeOf mn bts (allocPayload mn bts srcId prev e w)).estimated = true)
    ∧
    (∀ (prio : Nat → Int) (codeOf : Nat → String) (mn : String) (bts : Int)
        (est good : RawRow) (qc : Int),
      est.quality_code = some 50 → good.quality_code = some qc → 50 < qc →
        consolidateCountersGroup prio codeOf mn bts [est, good]
          = some (canonicalWriteOf codeOf mn bts good)
        ∧ consolidateCountersGroup prio codeOf mn bts [good, est]
          = some (canonicalWriteOf codeOf mn bts good))
    ∧
    (∀ (prio : Nat → Int) (est good : RawRow),
      est.estimated = true → good.estimated = false →
        chooseBestRaw prio [est, good] = some good ∧
        chooseBestRaw prio [good, est] = some good) := by
  refine ⟨?_, ?_, ?_⟩
  · intro prio codeOf mn bts srcId prev e w
    exact ⟨rfl, rfl⟩
  · intro prio codeOf mn bts est good qc hest hgood hq
    have h := countersBest_pair_qc prio good est qc 50 hgood hest hq
    constructor
    · simp only [consolidateCountersGroup, h.2]; rfl
    · simp only [consolidateCountersGroup, h.1]; rfl
  · intro prio est good hest hgood
    have h := chooseBestRaw_pair_est prio good est hgood hest
    exact ⟨h.2, h.1⟩

/-- Concrete C4 data: a synthetic allocator row (quality_code 50, estimation
source priority 10) against TV-ingested GOOD rows. -/
def prevValsC4 : PrevVals := {}

def scopeEstC4 : ScopeEstimateM :=
  { scope := "pod", scope_id := 1, bucket_ts := 0, ea_plus := some 8 }

def estRowC4 : RawRow := allocPayload "M" 0 1 prevValsC4 scopeEstC4 1

/-- A real GOOD TV row ingested with caller-supplied `quality` 40. -/
def goodRow40C4 : RawRow :=
  tvPayload "M" 95 2 { tv := 0, ea_plus := some 10, quality := some 40 }

/-- A real GOOD TV row ingested with the default quality code 95. -/
def goodRow95C4 : RawRow := tvPayload "M" 95 2 { tv := 0, ea_plus := some 10 }

def prioC4 : Nat → Int := fun s => if s = 1 then estimateScopePriority else tvSourcePriority

def codeC4 : Nat → String := fun s => if s = 1 then "ESTIMATE_CLIENT_SCOPE" else "SDI_PROC_TV"

/-- C4 counterexample: a real GOOD observation from the TV ingestion source
(quality "GOOD", estimated false) whose `quality_code` is 40 does NOT displace
the allocator's ESTIMATED row (quality_code 50) on re-consolidation: the
canonical write stays the estimated row. -/
theorem C4_counterexample :
    goodRow40C4.quality = some "GOOD" ∧ goodRow40C4.estimated = false ∧
    consolidateCountersGroup prioC4 codeC4 "M" 0 [estRowC4, goodRow40C4]
      = some (canonicalWriteOf codeC4 "M" 0 estRowC4) ∧
    (canonicalWriteOf codeC4 "M" 0 estRowC4).estimated = true :=
  ⟨rfl, rfl, rfl, rfl⟩

theorem C4_witness :
    estRowC4.quality_code = some 50 ∧ goodRow95C4.quality_code = some 95 ∧
    (50 : Int) < 95 ∧
    consolidateCountersGroup prioC4 codeC4 "M" 0 [estRowC4, goodRow95C4]
      = some (canonicalWriteOf codeC4 "M" 0 goodRow95C4) :=
  ⟨rfl, rfl, by decide,
    (C4_displacement.2.1 prioC4 codeC4 "M" 0 estRowC4 goodRow95C4 95
      rfl rfl (by decide)).1⟩

/-!  ## Claim C9 -/

/-- C9 counterexample: the estimation source's default priority (10) is NOT a
larger number than the real ingestion sources' defaults (80, 70, 50) — it is
smaller than all of them. -/
theorem C9_counterexample :
    ¬ (tvSourcePriority < estimateScopePriority ∧
       bucketsSourcePriority < estimateScopePriority ∧
       defaultIngestPriority < estimateScopePriority) := by decide

/-- C9 (amended): every synthetic allocator row is stamped
`estimated=true`, `quality="ESTIMATED"`, `quality_code=50` and carries the
dedicated estimation source, whose default priority 10 is a SMALLER number
than every real ingestion source's default (80 for SDI_PROC_TV, 70 for
SDI_PROC_BUCKETS, 50 generic) — i.e. better-ranked under `choose_best_raw`'s
lower-is-preferred convention, worse-ranked under the counters consolidator's
higher-is-preferred one. -/
theorem C9_stamps :
    (∀ (mn : String) (bts : Int) (srcId : Nat) (prev : PrevVals)
        (e : ScopeEstimateM) (w : ℚ),
      (allocPayload mn bts srcId prev e w).estimated = true ∧
      (allocPayload mn bts srcId prev e w).quality = some "ESTIMATED" ∧
      (allocPayload mn bts srcId prev e w).quality_code = some 50 ∧
      (allocPayload mn bts srcId prev e w).source_id = srcId)
    ∧ estimateScopePriority < defaultIngestPriority
    ∧ estimateScopePriority < bucketsSourcePriority
    ∧ estimateScopePriority < tvSourcePriority :=
  ⟨fun _ _ _ _ _ _ => ⟨rfl, rfl, rfl, rfl⟩, by decide, by decide, by decide⟩

/-!  ## Sorting helper lemmas -/

theorem insertSortedBy_ne_nil (le : α → α → Bool) (x : α) (l : List α) :
    insertSortedBy le x l ≠ [] := by
  cases l with
  | nil => simp [insertSortedBy]
  | cons y ys =>
    simp only [insertSortedBy]
    by_cases h : le x y = true
    · simp [h]
    · simp [h]

theorem sortBy_eq_nil_iff (le : α → α → Bool) (l : List α) :
    sortBy le l = [] ↔ l = [] := by
  cases l with
  | nil => simp [sortBy]
  | cons x xs =>
    simp only [sortBy]
    constructor
    · intro h; exact absurd h (insertSortedBy_ne_nil le x (sortBy le xs))
    · intro h; cases h

theorem mem_insertSortedBy (le : α → α → Bool) (x a : α) (l : List α) :
    a ∈ insertSortedBy le x l ↔ a = x ∨ a ∈ l := by
  induction l with
  | nil => simp [insertSortedBy]
  | cons y ys ih =>
    simp only [insertSortedBy]
    cases h : le x y with
    | true => simp [List.mem_cons]
    | false =>
      simp only [Bool.false_eq_true, if_false, List.mem_cons, ih]
      tauto

theorem mem_sortBy (le : α → α → Bool) (a : α) (l : List α) :
    a ∈ sortBy le l ↔ a ∈ l := by
  induction l with
  | nil => simp [sortBy]
  | cons x xs ih =>
    simp only [sortBy, mem_insertSortedBy, ih, List.mem_cons]

/-!  ## Claim C6 -/

/-- Concrete C6 data: meter A(1) assigned to pod P(1) over `[Jan1, Mar1)`
(days 0 and 59), replacement A→B(2) at Feb1 (day 31) with handover 1000. -/
def dbC6 : DB :=
  { meters := [{ id := 1, meter_no := "A" }, { id := 2, meter_no := "B" }],
    meterAssignments := [{ unit_id := 1, meter_id := 1, valid_from := 0, valid_to := some 59 }],
    replacements :=
      [{ old_meter_id := 1, new_meter_id := 2, replacement_ts := 31,
         handover_read_active_import := some 1000 }] }

/-- C6 (confirmed): `SegmentsDuring(P, Jan1, Mar1)` yields exactly the two
segments (A, Jan1, Feb1) without handover and (B, Feb1, Mar1) with handover
1000, sorted by (from, meter_id).  (The new meter's `meter_no` is `none`
because the source only fetches meters of the base segments.) -/
theorem C6_replacement_split :
    meterSegmentsForScopeDuring dbC6 "pod" 1 0 59 true =
      [{ meter_id := 1, meter_no := some "A", segFrom := 0, segTo := 31,
         handover_from_prev := none },
       { meter_id := 2, meter_no := none, segFrom := 31, segTo := 59,
         handover_from_prev := some 1000 }] := by decide

/-!  ## Claim C10 -/

theorem repLoop_eq_nil (meterNoOf : Nat → Option String) (mid : Nat) (segEnd : Int)
    (reps : List MeterReplacementM) (c0 : Int)
    (h : ∀ rp ∈ reps, rp.replacement_ts ≤ c0 ∨ segEnd ≤ rp.replacement_ts) :
    ∀ c, c0 ≤ c → repLoop meterNoOf mid segEnd reps c = [] := by
  induction reps with
  | nil => intro c _; rfl
  | cons rp rest ih =>
    intro c hc
    have hrp := h rp (List.mem_cons_self rp rest)
    have hcond : rp.replacement_ts ≤ c ∨ segEnd ≤ rp.replacement_ts := by
      rcases hrp with h' | h'
      · exact Or.inl (le_trans h' hc)
      · exact Or.inr h'
    simp only [repLoop, if_pos hcond]
    exact ih (fun r hr => h r (List.mem_cons_of_mem rp hr)) c hc

/-- The split of a base segment emits nothing when the meter has replacement
events but none strictly inside the clipped segment. -/
theorem baseSegmentSplit_eq_nil (meterNoOf : Nat → Option String)
    (reps : List MeterReplacementM) (mid : Nat) (segS segE : Int)
    (hne : reps.filter (fun rp => rp.old_meter_id = mid) ≠ [])
    (hout : ∀ rp ∈ reps, rp.old_meter_id = mid →
      rp.replacement_ts ≤ segS ∨ segE ≤ rp.replacement_ts) :
    baseSegmentSplit meterNoOf reps (mid, segS, segE) = [] := by
  unfold baseSegmentSplit
  have hsne : ¬(sortBy (fun a b => decide (a.replacement_ts ≤ b.replacement_ts))
      (reps.filter (fun rp => decide (rp.old_meter_id = mid))) = []) := by
    intro hnil
    rw [sortBy_eq_nil_iff] at hnil
    exact hne hnil
  simp only [hsne, if_false]
  exact repLoop_eq_nil meterNoOf mid segE _ segS
    (fun rp hr => by
      rw [mem_sortBy, List.mem_filter, decide_eq_true_eq] at hr
      exact hout rp hr.1 hr.2)
    segS le_rfl

/-- C10 (confirmed): when the scope's only assignment row belongs to meter
`a.meter_id`, overlaps the window, and that meter has at least one replacement
event inside `[start, end)` but none of them falls strictly inside the clipped
segment, `SegmentsDuring` returns no segments at all — the meter's portion of
the window is left uncovered (the trailing whole-segment branch is guarded by
`not reps_here` and never fires). -/
theorem C10_uncovered_meter (db : DB) (scope : String) (sid : Nat)
    (start endT : Int) (a : AssignRow)
    (h1 : assignmentsForScope db scope sid = [a])
    (h2 : overlapsHalfOpen a.valid_from a.valid_to start (some endT) = true)
    (h3 : ∃ rp ∈ db.replacements, rp.old_meter_id = a.meter_id ∧
      start ≤ rp.replacement_ts ∧ rp.replacement_ts < endT)
    (h4 : ∀ rp ∈ db.replacements, rp.old_meter_id = a.meter_id →
      start ≤ rp.replacement_ts → rp.replacement_ts < endT →
      rp.replacement_ts ≤ intMax a.valid_from start ∨
        intMin (a.valid_to.getD endT) endT ≤ rp.replacement_ts) :
    meterSegmentsForScopeDuring db scope sid start endT true = [] := by
  obtain ⟨rp0, hrp0mem, hrp0old, hrp0s, hrp0e⟩ := h3
  unfold meterSegmentsForScopeDuring
  rw [h1]
  simp only [List.filterMap_cons, List.filterMap_nil, h2, if_true]
  have hsplit : baseSegmentSplit
      (fun mid =>
        if (List.map (fun seg => seg.1)
            [(a.meter_id, intMax a.valid_from start,
              intMin (a.valid_to.getD endT) endT)]).contains mid = true then
          Option.map (fun m => m.meter_no) (List.find? (fun m => decide (m.id = mid)) db.meters)
        else none)
      (db.replacements.filter
        (fun rp => decide (start ≤ rp.replacement_ts ∧ rp.replacement_ts < endT)))
      (a.meter_id, intMax a.valid_from start, intMin (a.valid_to.getD endT) endT)
      = [] := by
    apply baseSegmentSplit_eq_nil
    · intro hnil
      have : rp0 ∈ db.replacements.filter
          (fun rp => decide (start ≤ rp.replacement_ts ∧ rp.replacement_ts < endT)) := by
        rw [List.mem_filter, decide_eq_true_eq]
        exact ⟨hrp0mem, hrp0s, hrp0e⟩
      have : rp0 ∈ (db.replacements.filter
          (fun rp => decide (start ≤ rp.replacement_ts ∧ rp.replacement_ts < endT))).filter
          (fun rp => decide (rp.old_meter_id = a.meter_id)) := by
        rw [List.mem_filter, decide_eq_true_eq]
        exact ⟨this, hrp0old⟩
      rw [hnil] at this
      cases this
    · intro rp hr hold
      rw [List.mem_filter, decide_eq_true_eq] at hr
      exact h4 rp hr.1 hold hr.2.1 hr.2.2
  simp only [List.flatMap_cons, List.flatMap_nil, List.append_nil]
  rw [hsplit]
  rfl

/-- Concrete C10 witness data: assignment of meter 7 to pod 1 valid
`[20, 50)`, window `[0, 60)`, a replacement of meter 7 at time 10
(inside the window but before the clipped segment start). -/
def dbC10 : DB :=
  { meters := [{ id := 7, meter_no := "OLD" }, { id := 8, meter_no := "NEW" }],
    meterAssignments := [{ unit_id := 1, meter_id := 7, valid_from := 20, valid_to := some 50 }],
    replacements := [{ old_meter_id := 7, new_meter_id := 8, replacement_ts := 10 }] }

def assignC10 : AssignRow := { unit_id := 1, meter_id := 7, valid_from := 20, valid_to := some 50 }

theorem C10_witness :
    assignmentsForScope dbC10 "pod" 1 = [assignC10] ∧
    overlapsHalfOpen assignC10.valid_from assignC10.valid_to 0 (some 60) = true ∧
    meterSegmentsForScopeDuring dbC10 "pod" 1 0 60 true = [] :=
  ⟨rfl, rfl,
    C10_uncovered_meter dbC10 "pod" 1 0 60 assignC10 rfl rfl
      ⟨{ old_meter_id := 7, new_meter_id := 8, replacement_ts := 10 },
        List.mem_cons_self _ _, rfl, by decide, by decide⟩
      (by
        intro rp hrp _ _ _
        simp only [dbC10, List.mem_singleton] at hrp
        subst hrp
        left
        decide)⟩

/-!  ## Claim C5 -/

theorem mem_boundIf (x s e t : Int) :
    (t ∈ if s < x ∧ x < e then [x] else []) ↔ (x = t ∧ s < t ∧ t < e) := by
  by_cases h : s < x ∧ x < e
  · rw [if_pos h, List.mem_singleton]
    constructor
    · rintro rfl; exact ⟨rfl, h⟩
    · rintro ⟨rfl, _⟩; rfl
  · rw [if_neg h]
    simp only [List.not_mem_nil, false_iff]
    rintro ⟨rfl, hb⟩
    exact h hb

theorem mem_taBoundary (ta : TariffAssignmentM) (s e t : Int) :
    (t ∈ ((match ta.valid_from with
      | some vf => if s < vf ∧ vf < e then [vf] else []
      | none => []) ++
      (match ta.valid_to with
        | some vt => if s < vt ∧ vt < e then [vt] else []
        | none => []))) ↔
    ((ta.valid_from = some t ∨ ta.valid_to = some t) ∧ s < t ∧ t < e) := by
  rcases hvf : ta.valid_from with _ | vf <;> rcases hvt : ta.valid_to with _ | vt <;>
    simp only [List.append_nil, List.nil_append, List.mem_append, mem_boundIf,
      List.not_mem_nil, Option.some.injEq, hvf, hvt, false_or, or_false] <;>
    tauto

theorem mem_vatBoundary (v : VatRateHistoryM) (s e t : Int) :
    (t ∈ ((if s < v.valid_from ∧ v.valid_from < e then [v.valid_from] else []) ++
      (match v.valid_to with
        | some vt => if s < vt ∧ vt < e then [vt] else []
        | none => []))) ↔
    ((v.valid_from = t ∨ v.valid_to = some t) ∧ s < t ∧ t < e) := by
  rcases hvt : v.valid_to with _ | vt <;>
    simp only [List.append_nil, List.nil_append, List.mem_append, mem_boundIf,
      List.not_mem_nil, Option.some.injEq, hvt, false_or, or_false] <;>
    tauto

theorem mem_sliceBoundaryPoints (db : DB) (scope : String) (sid : Nat)
    (s e t : Int) :
    t ∈ sliceBoundaryPoints db scope sid s e ↔
      ((t = s ∨ t = e) ∨
      (∃ ta ∈ db.tariffAssignments, sliceTaMatch scope sid ta = true ∧
        (ta.valid_from = some t ∨ ta.valid_to = some t) ∧ s < t ∧ t < e) ∨
      (∃ v ∈ db.vatHistory, v.valid_from < e ∧
        (v.valid_from = t ∨ v.valid_to = some t) ∧ s < t ∧ t < e)) := by
  unfold sliceBoundaryPoints
  rw [List.append_assoc, List.mem_append, List.mem_append]
  apply or_congr
  · simp
  apply or_congr
  · rw [List.mem_flatMap]
    constructor
    · rintro ⟨ta, hta, hbody⟩
      rw [List.mem_filter] at hta
      exact ⟨ta, hta.1, hta.2, (mem_taBoundary ta s e t).1 hbody⟩
    · rintro ⟨ta, hmem, hmatch, hb⟩
      exact ⟨ta, List.mem_filter.2 ⟨hmem, hmatch⟩, (mem_taBoundary ta s e t).2 hb⟩
  · rw [List.mem_flatMap]
    constructor
    · rintro ⟨v, hv, hbody⟩
      rw [List.mem_filter, decide_eq_true_eq] at hv
      exact ⟨v, hv.1, hv.2, (mem_vatBoundary v s e t).1 hbody⟩
    · rintro ⟨v, hmem, hlt, hb⟩
      exact ⟨v, List.mem_filter.2 ⟨hmem, by simpa using hlt⟩, (mem_vatBoundary v s e t).2 hb⟩

/-- C5 (amended): `slice_boundaries` returns a strictly-sorted deduplicated
list whose members are exactly `start`, `end`, the in-window validity
boundaries of every tariff assignment matched by the degenerate OR-filter
`sliceTaMatch` (which a NULL scope column of ANY assignment satisfies, so
other units' assignments leak in), and the in-window global VAT boundaries; in
particular a tariff change at `T` on the unit's own assignment always yields
the cut `T`. -/
theorem C5_slice_boundaries (db : DB) (scope : String) (sid : Nat) (s e : Int) :
    List.Sorted (· < ·) (sliceBoundaries db scope sid s e)
    ∧ (∀ t, t ∈ sliceBoundaries db scope sid s e ↔
        ((t = s ∨ t = e) ∨
        (∃ ta ∈ db.tariffAssignments, sliceTaMatch scope sid ta = true ∧
          (ta.valid_from = some t ∨ ta.valid_to = some t) ∧ s < t ∧ t < e) ∨
        (∃ v ∈ db.vatHistory, v.valid_from < e ∧
          (v.valid_from = t ∨ v.valid_to = some t) ∧ s < t ∧ t < e)))
    ∧ (∀ ta ∈ db.tariffAssignments, ∀ t : Int,
        ((scope = "site" ∧ ta.site_id = some sid) ∨
         (scope = "od_pod" ∧ ta.od_pod_id = some sid) ∨
         (scope = "pod" ∧ ta.pod_id = some sid)) →
        ta.valid_from = some t → s < t → t < e →
        t ∈ sliceBoundaries db scope sid s e) := by
  have hmem : ∀ t, t ∈ sliceBoundaries db scope sid s e ↔
      t ∈ sliceBoundaryPoints db scope sid s e := by
    intro t
    unfold sliceBoundaries
    rw [List.mem_insertionSort, List.mem_dedup]
  refine ⟨?_, ?_, ?_⟩
  · have hsorted : List.Sorted (· ≤ ·) (sliceBoundaries db scope sid s e) :=
      List.sorted_insertionSort (· ≤ ·) _
    have hnodup : (sliceBoundaries db scope sid s e).Nodup :=
      ((List.perm_insertionSort (· ≤ ·) _).nodup_iff).2 (List.nodup_dedup _)
    exact hsorted.lt_of_le hnodup
  · intro t
    rw [hmem t, mem_sliceBoundaryPoints]
  · intro ta hta t hscope hvf hs he
    rw [hmem t, mem_sliceBoundaryPoints]
    refine Or.inr (Or.inl ⟨ta, hta, ?_, Or.inl hvf, hs, he⟩)
    unfold sliceTaMatch
    rcases hscope with ⟨h1, h2⟩ | ⟨h1, h2⟩ | ⟨h1, h2⟩ <;> subst h1 <;> simp [h2]

/-- C5 counterexample data: the billed unit is pod 1, but the only tariff
assignment belongs to pod 2 (its site/od_pod columns NULL, per the
exactly-one-scope invariant), with `valid_from` 30 inside (0, 60). -/
def taC5 : TariffAssignmentM :=
  { id := 1, pod_id := some 2, tariff_id := 1, valid_from := some 30 }

def dbC5 : DB := { tariffAssignments := [taC5] }

/-- C5 counterexample: pod 2's boundary 30 appears in pod 1's slice
boundaries — boundaries of other scope units' tariff assignments are NOT
excluded (the claim expects `[0, 60]`). -/
theorem C5_counterexample :
    (dbC5.tariffAssignments.map (fun ta => ta.pod_id)) = [some 2] ∧
    sliceBoundaries dbC5 "pod" 1 0 60 = [0, 30, 60] := by decide

/-- C5 witness data: one tariff assignment of pod 1 itself changing at 30. -/
def taC5W : TariffAssignmentM :=
  { id := 1, pod_id := some 1, tariff_id := 1, valid_from := some 30 }

def dbC5W : DB := { tariffAssignments := [taC5W] }

theorem C5_witness :
    taC5W ∈ dbC5W.tariffAssignments ∧
    ("pod" = "pod" ∧ taC5W.pod_id = some 1) ∧
    taC5W.valid_from = some 30 ∧ (0 : Int) < 30 ∧ (30 : Int) < 60 ∧
    (30 : Int) ∈ sliceBoundaries dbC5W "pod" 1 0 60 :=
  ⟨List.mem_cons_self _ _, ⟨rfl, rfl⟩, rfl, by decide, by decide,
    (C5_slice_boundaries dbC5W "pod" 1 0 60).2.2 taC5W (List.mem_cons_self _ _) 30
      (Or.inr (Or.inr ⟨rfl, rfl⟩)) rfl (by decide) (by decide)⟩

/-!  ## Claim C7 -/

theorem deltaGo_nonneg (get : MeterDataM → ℚ) (b : MeterDataM) (bs : List MeterDataM) :
    0 ≤ deltaGo get b bs := by
  induction bs generalizing b with
  | nil => simp [deltaGo]
  | cons c cs ih =>
    simp only [deltaGo]
    refine add_nonneg ?_ (ih c)
    split
    · exact le_refl 0
    · rename_i h
      exact le_of_not_lt h

theorem deltaChan_nonneg (get : MeterDataM → ℚ) (l : List MeterDataM) :
    0 ≤ deltaChan get l := by
  cases l with
  | nil => simp [deltaChan]
  | cons b bs => exact deltaGo_nonneg get b bs

theorem qMax_zero_nonneg (a : ℚ) : 0 ≤ qMax a 0 := by
  unfold qMax
  split
  · exact le_refl 0
  · rename_i h
    exact le_of_not_lt h

theorem upsertAdd_nonneg (k : Int) (v : ℚ) (hv : 0 ≤ v) (acc : List (Int × ℚ))
    (hacc : ∀ p ∈ acc, 0 ≤ p.2) : ∀ p ∈ upsertAdd k v acc, 0 ≤ p.2 := by
  induction acc with
  | nil =>
    intro p hp
    simp only [upsertAdd, List.mem_singleton] at hp
    subst hp
    exact hv
  | cons q rest ih =>
    intro p hp
    simp only [upsertAdd] at hp
    split at hp
    · rcases List.mem_cons.1 hp with rfl | hmem
      · exact add_nonneg (hacc q (List.mem_cons_self q rest)) hv
      · exact hacc p (List.mem_cons_of_mem q hmem)
    · rcases List.mem_cons.1 hp with heq | hmem
      · rw [heq]; exact hacc q (List.mem_cons_self q rest)
      · exact ih (fun r hr => hacc r (List.mem_cons_of_mem q hr)) p hmem

theorem fetchGo_nonneg (bucketOf : Int → Int) (rows : List (Int × Option ℚ)) :
    ∀ (lastFa : Option ℚ) (acc : List (Int × ℚ)), (∀ p ∈ acc, 0 ≤ p.2) →
      ∀ p ∈ fetchGo bucketOf lastFa rows acc, 0 ≤ p.2 := by
  induction rows with
  | nil => intro lastFa acc hacc p hp; exact hacc p hp
  | cons r rest ih =>
    intro lastFa acc hacc p hp
    obtain ⟨ts, faOpt⟩ := r
    simp only [fetchGo] at hp
    exact ih _ _ (upsertAdd_nonneg _ _ (qMax_zero_nonneg _) acc hacc) p hp

theorem pyOrOne_nonneg (c : Option ℚ) (hc : ∀ v, c = some v → 0 ≤ v) :
    0 ≤ pyOrOne c := by
  cases c with
  | none => norm_num [pyOrOne]
  | some v =>
    simp only [pyOrOne]
    split
    · norm_num
    · exact hc v rfl

/-- C7 (amended): every per-band energy of `energy_by_band` is non-negative
unconditionally (the clamp applies after the constant multiplication), and in
`fetch_energy_db_meterdata` every per-bucket sum of clamped deltas is
non-negative, so every emitted `ea_plus` is non-negative PROVIDED the meter
constant is non-negative (the constant multiplies the clamped sum at the
end). -/
theorem C7_energy_nonneg :
    (∀ (db : DB) (mn : String) (s e : Int),
      0 ≤ (energyByBand db mn s e).aPlus ∧ 0 ≤ (energyByBand db mn s e).aMinus ∧
      0 ≤ (energyByBand db mn s e).aPlusT1 ∧ 0 ≤ (energyByBand db mn s e).aPlusT2 ∧
      0 ≤ (energyByBand db mn s e).aPlusT3 ∧ 0 ≤ (energyByBand db mn s e).aPlusT4 ∧
      0 ≤ (energyByBand db mn s e).aMinusT1 ∧ 0 ≤ (energyByBand db mn s e).aMinusT2 ∧
      0 ≤ (energyByBand db mn s e).aMinusT3 ∧ 0 ≤ (energyByBand db mn s e).aMinusT4)
    ∧
    (∀ (bucketOf : Int → Int) (rows : List (Int × Option ℚ)),
      ∀ p ∈ fetchGo bucketOf none rows [], 0 ≤ p.2)
    ∧
    (∀ (bucketOf : Int → Int) (c : Option ℚ) (rows : List (Int × Option ℚ)),
      (∀ v, c = some v → 0 ≤ v) →
      ∀ p ∈ fetchEnergyDbMeterdata bucketOf c rows, 0 ≤ p.2) := by
  refine ⟨?_, ?_, ?_⟩
  · intro db mn s e
    exact ⟨deltaChan_nonneg _ _, deltaChan_nonneg _ _, deltaChan_nonneg _ _,
      deltaChan_nonneg _ _, deltaChan_nonneg _ _, deltaChan_nonneg _ _,
      deltaChan_nonneg _ _, deltaChan_nonneg _ _, deltaChan_nonneg _ _,
      deltaChan_nonneg _ _⟩
  · intro bucketOf rows
    exact fetchGo_nonneg bucketOf rows none [] (by simp)
  · intro bucketOf c rows hc p hp
    unfold fetchEnergyDbMeterdata at hp
    rw [List.mem_map] at hp
    obtain ⟨q, hq, rfl⟩ := hp
    rw [mem_sortBy] at hq
    exact mul_nonneg (fetchGo_nonneg bucketOf rows none [] (by simp) q hq)
      (pyOrOne_nonneg c hc)

/-- C7 counterexample: with a (configured) negative meter constant −1 and
counter readings 0 then 10 in one bucket, `fetch_energy_db_meterdata` emits a
NEGATIVE bucket energy −10: the bucketed aggregate is not always
non-negative. -/
theorem C7_counterexample :
    fetchEnergyDbMeterdata (fun _ => 0) (some (-1)) [(0, some 0), (1, some 10)]
      = [(0, -10)] ∧ ((-10 : ℚ) < 0) := by
  constructor
  · norm_num [fetchEnergyDbMeterdata, fetchGo, upsertAdd, qMax, sortBy,
      insertSortedBy, pyOrOne]
  · norm_num

theorem C7_witness :
    (∀ v : ℚ, some (2 : ℚ) = some v → 0 ≤ v) ∧
    (∀ p ∈ fetchEnergyDbMeterdata (fun _ => 0) (some 2) [(0, some 1), (1, some 4)],
      0 ≤ p.2) :=
  ⟨fun v hv => by injection hv with h; rw [← h]; norm_num,
    C7_energy_nonneg.2.2 (fun _ => 0) (some 2) [(0, some 1), (1, some 4)]
      (fun v hv => by injection hv with h; rw [← h]; norm_num)⟩

/-!  ## Claim C8 -/

/-- C8 (amended): `resolve_unit_price_cents` returns without raising whenever
an applicable offer carries an explicit price, or (with no applicable offer)
the assignment carries a price override; it raises exactly when the base
operator-price lookup for the RESOLVED operator returns nothing — which, for a
named operator, happens whenever that operator has no price row for the
tariff, even if other operators do. -/
theorem C8_price_resolution (db : DB) (scope : String) (sid : Nat)
    (ta : TariffAssignmentM) (t : Int) :
    (∀ off c, offerFor db scope sid ta.tariff_id ta.operator t = some off →
      off.unit_price_cents = some c →
      resolveUnitPriceCents db scope sid ta t = .ok c)
    ∧
    (∀ c, offerFor db scope sid ta.tariff_id ta.operator t = none →
      ta.price_override_cents = some c →
      resolveUnitPriceCents db scope sid ta t = .ok c)
    ∧
    ((∃ msg, resolveUnitPriceCents db scope sid ta t = .error msg) ↔
      (match offerFor db scope sid ta.tariff_id ta.operator t with
       | some off => off.unit_price_cents = none ∧
           operatorPriceCents db ta.tariff_id
             (off.operator.orElse (fun _ => ta.operator)) = none
       | none => ta.price_override_cents = none ∧
           operatorPriceCents db ta.tariff_id ta.operator = none)) := by
  refine ⟨?_, ?_, ?_⟩
  · intro off c hoff hc
    unfold resolveUnitPriceCents
    rw [hoff]
    simp [hc]
  · intro c hoff hc
    unfold resolveUnitPriceCents
    rw [hoff]
    simp [hc]
  · unfold resolveUnitPriceCents
    cases hoff : offerFor db scope sid ta.tariff_id ta.operator t with
    | some off =>
      cases hupc : off.unit_price_cents with
      | some c => simp [hupc]
      | none =>
        cases hbase : operatorPriceCents db ta.tariff_id
            (off.operator.orElse (fun _ => ta.operator)) with
        | none => simp [hupc, hbase]
        | some b => simp [hupc, hbase]
    | none =>
      cases hov : ta.price_override_cents with
      | some c => simp [hov]
      | none =>
        cases hbase : operatorPriceCents db ta.tariff_id ta.operator with
        | none => simp [hov, hbase]
        | some b =>
          cases hd : discountTruthy ta.discount_percent with
          | true => simp [hov, hbase, hd]
          | false => simp [hov, hbase, hd]

/-- C8 counterexample data: tariff 1 has a configured operator price (for
operator "A"), but the assignment names operator "B". -/
def taC8 : TariffAssignmentM := { id := 1, tariff_id := 1, operator := some "B" }

def dbC8 : DB :=
  { operatorPrices := [{ tariff_id := 1, operator := "A", price := 1/2 }] }

/-- C8 counterexample: the tariff has a configured operator price, no offer and
no override apply, yet `resolve_unit_price_cents` raises, because the named
operator "B" has no price row. -/
theorem C8_counterexample :
    (dbC8.operatorPrices.filter (fun p => p.tariff_id = taC8.tariff_id)).length = 1 ∧
    resolveUnitPriceCents dbC8 "pod" 1 taC8 0 =
      .error "No operator price available for tariff" :=
  ⟨by decide, rfl⟩

def taC8W : TariffAssignmentM :=
  { id := 1, tariff_id := 1, price_override_cents := some 77 }

theorem C8_witness :
    offerFor ({} : DB) "pod" 1 taC8W.tariff_id taC8W.operator 0 = none ∧
    taC8W.price_override_cents = some 77 ∧
    resolveUnitPriceCents ({} : DB) "pod" 1 taC8W 0 = .ok 77 :=
  ⟨rfl, rfl, (C8_price_resolution ({} : DB) "pod" 1 taC8W 0).2.1 77 rfl rfl⟩

/-!  ## Claim C2 -/

/-- The exact scenario of the claim: meter M (constant 1.0) with canonical
active-import counters 100.0 at 00:00 (minute 0) and 115.0 at 01:00
(minute 60), tariff base price 0.50 currency units = 50 cents/kWh, VAT 19%,
billing `[00:00, 01:00)`. -/
def dbC2 : DB :=
  { meters := [{ id := 1, meter_no := "M", constant := some 1 }],
    meterData :=
      [{ meter_no := "M", timestamp := 0, active_import := 100, constant := some 1 },
       { meter_no := "M", timestamp := 60, active_import := 115, constant := some 1 }],
    meterAssignments := [{ unit_id := 1, meter_id := 1, valid_from := -100 }],
    tariffs := [{ id := 1, code := "T1" }],
    tariffAssignments := [{ id := 1, pod_id := some 1, tariff_id := 1 }],
    operatorPrices := [{ tariff_id := 1, operator := "OP", price := 1/2 }],
    vatHistory := [{ rate_percent := 19, valid_from := -100 }] }

def docC2 : BillingDocM :=
  { doc_type := "INVOICE", customer_id := "CUST", period_start := 0,
    period_end := 60, currency := "RON", status := "DRAFT", lines := [],
    subtotal_cents := 0, vat_cents := 0, total_cents := 0,
    contains_estimated := false }

/-- C2 counterexample: on the claim's exact inputs the bill has ZERO lines and
total 0 cents (not one line of quantity 15 / amount 750 / total 893): the
01:00 reading falls outside `timestamp < e` and `energy_by_band` fetches no
baseline, so the quantity is 0 and zero-quantity lines are skipped.
Independently, the claimed VAT `round(750*0.19) = 143` is also not what the
code computes: `round(amount * vat_rate / 100)` is round-half-even at 142.5,
i.e. 142. -/
theorem C2_counterexample :
    (createBillForScope dbC2 "CUST" "pod" 1 0 60 none "RON").toOption.map
      (fun d => (d.lines.length, d.total_cents)) = some (0, 0) ∧
    pythonRound ((750 : ℚ) * 19 / 100) = 142 := by
  constructor
  · with_unfolding_all rfl
  · with_unfolding_all rfl

/-- C2 (amended): billing `[00:00, 01:00)` for that meter produces a document
with no billing lines, subtotal/VAT/total all 0 cents and no estimated flag,
because only the 00:00 reading lies in the half-open window and a single
canonical point yields zero energy. -/
theorem C2_bill_example : createBillForScope dbC2 "CUST" "pod" 1 0 60 none "RON"
    = .ok docC2 := by
  with_unfolding_all rfl

/-!  ## Claim C3 -/

theorem resolveUnitPriceCents_error (db : DB) (scope : String) (sid : Nat)
    (ta : TariffAssignmentM) (t : Int) (msg : String)
    (h : resolveUnitPriceCents db scope sid ta t = .error msg) :
    msg = "No operator price available for tariff" := by
  unfold resolveUnitPriceCents at h
  split at h
  · split at h
    · exact Except.noConfusion h
    · split at h
      · injection h with h'; exact h'.symm
      · exact Except.noConfusion h
  · split at h
    · exact Except.noConfusion h
    · split at h
      · injection h with h'; exact h'.symm
      · split at h
        · exact Except.noConfusion h
        · exact Except.noConfusion h

theorem billSlices_error (db : DB) (scope : String) (sid : Nat)
    (op : Option String) (meters : List MeterM) (slices : List (Int × Int))
    (msg : String) (h : billSlices db scope sid op meters slices = .error msg) :
    msg = "No operator price available for tariff" ∨
      msg = "Tariff matching query does not exist." := by
  induction slices with
  | nil => exact Except.noConfusion h
  | cons se rest ih =>
    obtain ⟨s, e⟩ := se
    simp only [billSlices] at h
    split at h
    · exact ih h
    · rename_i ta hta
      split at h
      · rename_i msg2 hres
        injection h with h'
        subst h'
        exact Or.inl (resolveUnitPriceCents_error db scope sid ta s msg2 hres)
      · rename_i upc hres
        split at h
        · injection h with h'; exact Or.inr h'.symm
        · split at h
          · rename_i msg3 hrec
            injection h with h'
            subst h'
            exact ih hrec
          · exact Except.noConfusion h

theorem mem_metersInScope_pod (db : DB) (sid : Nat) (m : MeterM) :
    m ∈ metersInScope db "pod" sid ↔
      m ∈ db.meters ∧ ∃ a ∈ db.meterAssignments, a.unit_id = sid ∧ a.meter_id = m.id := by
  unfold metersInScope
  rw [if_pos rfl, List.mem_filter]
  apply and_congr_right
  intro _
  rw [List.contains_iff_exists_mem_beq]
  constructor
  · rintro ⟨x, hx, hbeq⟩
    rw [List.mem_map] at hx
    obtain ⟨a, ha, rfl⟩ := hx
    rw [List.mem_filter, decide_eq_true_eq] at ha
    exact ⟨a, ha.1, ha.2, (show m.id = a.meter_id by simpa using hbeq).symm⟩
  · rintro ⟨a, ha, hunit, hid⟩
    refine ⟨a.meter_id, ?_, by simp [hid]⟩
    rw [List.mem_map]
    exact ⟨a, List.mem_filter.2 ⟨ha, by simpa using hunit⟩, rfl⟩

/-- C3 (amended): `create_bill_for_scope` resolves its meters with
`services.meters_in_scope`, which applies NO time filtering — a meter is in
scope iff some assignment row of the unit names it, regardless of the
assignment's validity window — and the no-meters configuration error is raised
exactly when that unfiltered set is empty (never by the slice loop, whose only
errors are the price and missing-tariff ones). -/
theorem C3_scope_resolution (db : DB) (c : String) (scope : String) (sid : Nat)
    (ps pe : Int) (op : Option String) (cur : String) (h : ps < pe) :
    (createBillForScope db c scope sid ps pe op cur =
        .error "No meters in scope for the requested period" ↔
      metersInScope db scope sid = [])
    ∧
    (∀ m, m ∈ metersInScope db "pod" sid ↔
      m ∈ db.meters ∧ ∃ a ∈ db.meterAssignments, a.unit_id = sid ∧ a.meter_id = m.id) := by
  refine ⟨?_, mem_metersInScope_pod db sid⟩
  unfold createBillForScope
  rw [if_neg (not_not_intro h)]
  by_cases hm : metersInScope db scope sid = []
  · rw [if_pos hm]
    simp [hm]
  · rw [if_neg hm]
    constructor
    · intro hcon
      exfalso
      cases hbs : billSlices db scope sid op (metersInScope db scope sid)
          (consecutivePairs (sliceBoundaries db scope sid ps pe)) with
      | error msg =>
        simp only [hbs] at hcon
        injection hcon with h'
        subst h'
        rcases billSlices_error db scope sid op _ _ _ hbs with h' | h' <;>
          exact absurd h' (by decide)
      | ok res =>
        obtain ⟨ls, sub, vat, est⟩ := res
        simp only [hbs] at hcon
        exact Except.noConfusion hcon
    · intro hcon
      exact absurd hcon hm

theorem C3_witness :
    ((0 : Int) < 1) ∧
    (createBillForScope ({} : DB) "c" "pod" 1 0 1 none "RON" =
        .error "No meters in scope for the requested period" ↔
      metersInScope ({} : DB) "pod" 1 = []) :=
  ⟨by decide, (C3_scope_resolution ({} : DB) "c" "pod" 1 0 1 none "RON" (by decide)).1⟩

/-- C3 counterexample data: like `dbC2`, but the meter's assignment to pod 1
ENDED at −10, i.e. strictly before the billing period `[0, 60)`, and both
canonical readings lie inside the period. -/
def dbC3 : DB :=
  { meters := [{ id := 1, meter_no := "M", constant := some 1 }],
    meterData :=
      [{ meter_no := "M", timestamp := 0, active_import := 100, constant := some 1 },
       { meter_no := "M", timestamp := 30, active_import := 115, constant := some 1 }],
    meterAssignments :=
      [{ unit_id := 1, meter_id := 1, valid_from := -100, valid_to := some (-10) }],
    tariffs := [{ id := 1, code := "T1" }],
    tariffAssignments := [{ id := 1, pod_id := some 1, tariff_id := 1 }],
    operatorPrices := [{ tariff_id := 1, operator := "OP", price := 1/2 }],
    vatHistory := [{ rate_percent := 19, valid_from := -100 }] }

def lineC3 : BillingLineM :=
  { meter_no := "M"
    tariff_code := "T1"
    unit := "kWh"
    quantity := 15
    unit_price_cents := 50
    amount_cents := 750
    vat_rate_percent := 19
    vat_amount_cents := 142
    contains_estimated := false
    period_start := 0
    period_end := 60
    channel := "active_import"
    tou_band := none
    is_true_up := false }

def docC3 : BillingDocM :=
  { doc_type := "INVOICE", customer_id := "C", period_start := 0,
    period_end := 60, currency := "RON", status := "DRAFT",
    lines := [lineC3],
    subtotal_cents := 750, vat_cents := 142, total_cents := 892,
    contains_estimated := false }

/-- C3 counterexample: the meter's assignment window does NOT overlap the
billing period (the §4.1 scope-during set is empty), yet billing raises no
error and produces a billing line for that meter — expired assignments are
billed whenever canonical readings exist in the period. -/
theorem C3_counterexample :
    metersInScopeDuring dbC3 "pod" 1 0 60 = [] ∧
    createBillForScope dbC3 "C" "pod" 1 0 60 none "RON" = .ok docC3 := by
  constructor
  · rfl
  · with_unfolding_all rfl

end SDIFi
